import Mathlib

/-!
Verification of the Cardano node release monitor (src/python/cnode_check.py).

The script is shallowly embedded: every operation is a pure Lean function over
explicit state.  File and network I/O are modeled by explicit values:

* the cache file on disk is an `Option (Option String)` — `none` means the file
  does not exist, `some v` means the file holds the JSON object
  `\x7b "last_release": v \x7d` with `v = none` encoding a JSON null
  (the JSON encode/decode layer is the identity on the stored string);
* the outcome of the GET against the release feed is a `FeedResult`;
* the outcome of the POST to the messaging endpoint is an `Except String Unit`.

Python exceptions that the script does NOT catch are modeled with
`Except String`: `check_new_release` catches only
`requests.exceptions.RequestException`, so the `KeyError` raised by
`latest_release[ "tag_name" ]` on a response lacking that field escapes, and is
modeled as an `Except.error`.  `tag_name` is the one response field whose
absence the embedding tracks, because it is the only field `check_new_release`
itself indexes; the remaining fields are modeled as present.

String primitives that the script uses (`str.lstrip`, `str.split`, `int`,
slicing, `str.lower`, substring `in`) are embedded as structurally recursive
functions over `List Char`, matching Python semantics on the ASCII range
(Python code points correspond to Lean `Char`s; `len` and slicing count code
points).  Unicode-only behaviors of `int` and `str.lower` (non-ASCII digits
and case mappings) are outside the model; every string the claims mention is
ASCII apart from the fixed emoji literals, which no case mapping touches.
-/

/-! ## Python string primitives -/

/-- Python single-character-separator `str.split`: `"".split(c) = [""]`,
adjacent separators yield empty segments. -/
def splitOnChar (sep : Char) : List Char → List (List Char)
| [] => [[]]
| c :: rest =>
  if c = sep then [] :: splitOnChar sep rest
  else
    match splitOnChar sep rest with
    | g :: gs => (c :: g) :: gs
    | [] => [[c]]

/-- Valid continuation of a Python integer literal after its first digit:
digits, with single underscores allowed between digits. -/
def pyDigitsRest : List Char → Bool
| [] => true
| ['_'] => false
| '_' :: c :: cs => c.isDigit && pyDigitsRest (c :: cs)
| c :: cs => c.isDigit && pyDigitsRest cs

/-- Valid digit part of a Python integer literal: nonempty, starts with a
digit, single underscores only between digits. -/
def pyDigits : List Char → Bool
| [] => false
| c :: cs => c.isDigit && pyDigitsRest cs

/-- Numeric value of a digit/underscore sequence (underscores skipped). -/
def digitsVal (cs : List Char) : Nat :=
  cs.foldl (fun n c => if c = '_' then n else n * 10 + (c.toNat - 48)) 0

/-- Strip whitespace from both ends, as Python `int` does before parsing. -/
def trimChars (cs : List Char) : List Char :=
  ((cs.dropWhile Char.isWhitespace).reverse.dropWhile Char.isWhitespace).reverse

/-- Python `int(s)` on a string: optional surrounding whitespace, optional
sign, digits with single underscores between them; `none` models the
`ValueError` raised on anything else. -/
def pyIntL (cs : List Char) : Option Int :=
  match trimChars cs with
  | '+' :: ds => if pyDigits ds then some (digitsVal ds) else none
  | '-' :: ds => if pyDigits ds then some (-(digitsVal ds : Int)) else none
  | ds => if pyDigits ds then some (digitsVal ds) else none

/-- `listPre n h` : `n` is a leading segment of `h`. -/
def listPre : List Char → List Char → Bool
| [], _ => true
| _ :: _, [] => false
| a :: as, b :: bs => a == b && listPre as bs

/-- `listSub n h` : `n` occurs contiguously inside `h` (Python `n in h`). -/
def listSub : List Char → List Char → Bool
| n, [] => n.isEmpty
| n, c :: rest => listPre n (c :: rest) || listSub n rest

/-- Python substring test `needle in hay`. -/
def strContains (hay needle : String) : Bool :=
  listSub needle.data hay.data

/-- ASCII lowering of one character, the mapping Python `str.lower` applies on
the ASCII range. -/
def lowerChar (c : Char) : Char :=
  if 'A' ≤ c && c ≤ 'Z' then Char.ofNat (c.toNat + 32) else c

/-- Python `s.lower()` restricted to the ASCII range. -/
def asciiLower (s : String) : String :=
  String.mk (s.data.map lowerChar)

/-- Python slice `s[:n]` (counts code points, like `len`). -/
def pySlice (s : String) (n : Nat) : String :=
  String.mk (s.data.take n)

/-- Python `sep.join(parts)`. -/
def joinWith (sep : String) : List String → String
| [] => ""
| [x] => x
| x :: y :: xs => x ++ sep ++ joinWith sep (y :: xs)

/-! ## Version parser (`CardanoNodeMonitor._parse_version`) -/

/-- `_parse_version`, line for line:
`version = tag_name.lstrip('v')` — note `lstrip` removes EVERY leading `v` —
then `version_parts = version.split('-')`,
`main_version = tuple(map(int, version_parts[0].split('.')))`,
`is_pre = len(version_parts) > 1`; any exception (a segment `int` rejects)
yields `((0, 0, 0), False)`. -/
def parse_version (tag_name : String) : List Int × Bool :=
  match (splitOnChar '.' ((splitOnChar '-' (tag_name.data.dropWhile (fun c => c = 'v'))).headD [])).mapM pyIntL with
  | some main_version =>
      (main_version, decide (1 < (splitOnChar '-' (tag_name.data.dropWhile (fun c => c = 'v'))).length))
  | none => ([0, 0, 0], false)

/-- The parser as the spec words it, with "strip a leading literal v if
present" read as stripping at most ONE leading `v`; the rest follows the
spec: split the remainder on `-`, dot-split the first segment into integers,
pre-release iff a segment after the first exists, zeros on any failure. -/
def parseClaimOneV (tag_name : String) : List Int × Bool :=
  match (splitOnChar '.' ((splitOnChar '-' (match tag_name.data with | 'v' :: rest => rest | other => other)).headD [])).mapM pyIntL with
  | some main_version =>
      (main_version, decide (1 < (splitOnChar '-' (match tag_name.data with | 'v' :: rest => rest | other => other)).length))
  | none => ([0, 0, 0], false)

/-- The parser as the spec words it, amended so that ALL leading `v`
characters are stripped (which is what `lstrip('v')` does). -/
def parseClaimAllV (tag_name : String) : List Int × Bool :=
  match (splitOnChar '.' ((splitOnChar '-' (tag_name.data.dropWhile (fun c => c = 'v'))).headD [])).mapM pyIntL with
  | some main_version =>
      (main_version, decide (1 < (splitOnChar '-' (tag_name.data.dropWhile (fun c => c = 'v'))).length))
  | none => ([0, 0, 0], false)

/-! ## Release records and the message formatter -/

/-- A release object parsed from the feed JSON.  `tag_name` is optional to
model a response missing that field — the one field `check_new_release`
indexes directly; the other recognized fields are modeled as present. -/
structure Release where
  tag_name : Option String
  name : String
  html_url : String
  body : String
  assets : List String
deriving DecidableEq, Repr

/-- Truncation applied to the release notes before they are placed in the
message: `if len(notes) > 500: notes = notes[:497] + "..."`. -/
def truncNotes (notes : String) : String :=
  if 500 < notes.data.length then pySlice notes 497 ++ ("...") else notes

/-- The keyword list scanned against the lowercased full notes. -/
def important_keywords : List String :=
  ["breaking change", "upgrade required", "mandatory upgrade"]

/-- The warning line appended for a matched keyword. -/
def warnLine (keyword : String) : String :=
  "\n⚠️ <b>IMPORTANT:</b> This release contains a " ++ keyword ++ "!"

/-- The keyword warning lines, one per matched keyword of
`important_keywords`, in list order, scanning the FULL (untruncated) notes
lowercased. -/
def keywordLines (notes : String) : List String :=
  (important_keywords.filter (fun k => strContains (asciiLower notes) k)).map warnLine

/-- The asset section: `if release_info.get("assets")` is truthy (non-empty
list), a header plus one bullet per asset name, in feed order. -/
def assetLines (assets : List String) : List String :=
  if assets.isEmpty then []
  else "\n<b>Available Downloads:</b>" :: assets.map (fun a => "• " ++ a)

/-- The lines of `format_telegram_message`, in append order.  Indexing
`release_info[ "tag_name" ]` raises `KeyError` when the field is absent. -/
def messageParts (r : Release) : Except String (List String) :=
  match r.tag_name with
  | none => .error ("KeyError: tag_name")
  | some tag =>
    .ok (["🔔 <b>New Cardano Node Release!</b>",
          "\n<b>Version:</b> " ++ tag,
          "<b>Name:</b> " ++ r.name]
      ++ (if (parse_version tag).2 then ["\n⚠️ <b>Note:</b> This is a pre-release version"] else [])
      ++ ["\n<b>Release URL:</b> " ++ r.html_url]
      ++ assetLines r.assets
      ++ ["\n<b>Release Notes:</b>\n" ++ truncNotes r.body]
      ++ keywordLines r.body)

/-- `format_telegram_message`: the lines joined with newlines. -/
def format_telegram_message (r : Release) : Except String String :=
  (messageParts r).map (fun ps => joinWith ("\n") ps)

/-! ## Notifier (`TelegramNotifier.send_message`) -/

/-- `send_message` posts and checks the status; it catches EVERY exception and
returns `False`, so it is total: the argument is the outcome of the POST
(`.error` = transport error or non-2xx raised by `raise_for_status`). -/
def send_message (post : Except String Unit) : Bool :=
  match post with
  | .ok _ => true
  | .error _ => false

/-! ## Monitor state, cache, and the release check -/

/-- The mutable world of the monitor: the in-memory `self.last_release` and the
cache file (`none` = file absent; `some v` = file stores identifier `v`,
where `v = none` is a stored JSON null). -/
structure MonitorState where
  last_release : Option String
  cacheFile : Option (Option String)
deriving DecidableEq, Repr

/-- `_load_cache`: if the file exists, `last_release` becomes the stored
`data.get("last_release")`; otherwise `last_release` is left as it was. -/
def load_cache (file : Option (Option String)) (current : Option String) : Option String :=
  match file with
  | none => current
  | some stored => stored

/-- `_save_cache`: overwrite the file with the current `last_release`. -/
def save_cache (last_release : Option String) : Option (Option String) :=
  some last_release

/-- `CardanoNodeMonitor.__init__`: `last_release = None`, then `_load_cache`. -/
def initMonitor (file : Option (Option String)) : MonitorState :=
  { last_release := load_cache file none, cacheFile := file }

/-- Outcome of the GET against the release feed: a raised
`requests.exceptions.RequestException` (carrying its message), or a decoded
JSON release object. -/
inductive FeedResult where
| requestError (e : String)
| ok (resp : Release)
deriving DecidableEq, Repr

/-- `check_new_release`.  Result on the `.ok` side: the state after the call,
the returned release (`none` = returned `None`), and the warning message sent
through the notifier (only on request failure).  The `.error` side is an
exception the `except requests.exceptions.RequestException` clause does not
catch: the `KeyError` from `latest_release[ "tag_name" ]`. -/
def check_new_release (st : MonitorState) : FeedResult →
    Except String (MonitorState × Option Release × Option String)
| .requestError e =>
    .ok (st, none, some ("⚠️ Error checking Cardano node releases: " ++ e))
| .ok resp =>
  match resp.tag_name with
  | none => .error ("KeyError: tag_name")
  | some latest_tag =>
    match st.last_release with
    | none =>
        .ok ({ last_release := some latest_tag, cacheFile := save_cache (some latest_tag) },
             none, none)
    | some last =>
        if latest_tag ≠ last then
          .ok ({ last_release := some latest_tag, cacheFile := save_cache (some latest_tag) },
               some resp, none)
        else
          .ok (st, none, none)

/-- One iteration of the `start_monitoring` loop: run the check; when a
release comes back, `notify` sends the formatted message and DISCARDS the
send result (`post` is the POST outcome of that notification).  Returns the
state the next iteration starts from and the notification outcome, if any. -/
def loopStep (st : MonitorState) (feed : FeedResult) (post : Except String Unit) :
    Except String (MonitorState × Option Bool) :=
  match check_new_release st feed with
  | .error e => .error e
  | .ok (st', ret, _) =>
    match ret with
    | some _ => .ok (st', some (send_message post))
    | none => .ok (st', none)

/-- The trace of a sequence of checks: after each call, the state it left
behind and the release it returned.  Stops at the first uncaught exception. -/
def traceStates (st : MonitorState) : List FeedResult →
    Except String (List (MonitorState × Option Release))
| [] => .ok []
| f :: fs =>
  match check_new_release st f with
  | .error e => .error e
  | .ok (st', ret, _) =>
    match traceStates st' fs with
    | .error e => .error e
    | .ok tr => .ok ((st', ret) :: tr)

/-- Along a trace: every returned release carries a tag different from the
previous in-memory identifier, and the step synchronizes memory and file to
that tag; steps returning nothing either leave the state untouched or (first
run) seed both memory and file with one observed tag. -/
def NotifyFresh : MonitorState → List (MonitorState × Option Release) → Prop
| _, [] => True
| prev, (st', ret) :: rest =>
  (∀ r, ret = some r →
    prev.last_release ≠ r.tag_name ∧
    r.tag_name = st'.last_release ∧ st'.cacheFile = some st'.last_release) ∧
  (ret = none → st' = prev ∨
    (prev.last_release = none ∧ ∃ t, st'.last_release = some t ∧ st'.cacheFile = some (some t))) ∧
  NotifyFresh st' rest

/-! ## Example values used by the concrete witness theorems -/

/-- A well-formed release with tag `10.1`. -/
def relA : Release :=
  { tag_name := some ("10.1"), name := "A", html_url := "uA", body := "", assets := [] }

/-- A well-formed release with tag `10.2`. -/
def relB : Release :=
  { tag_name := some ("10.2"), name := "B", html_url := "uB", body := "", assets := [] }

/-- The monitor state whose memory and cache file both hold `10.1`. -/
def stA : MonitorState :=
  { last_release := some ("10.1"), cacheFile := some (some ("10.1")) }

/-- The monitor state whose memory and cache file both hold `10.2`. -/
def stB : MonitorState :=
  { last_release := some ("10.2"), cacheFile := some (some ("10.2")) }

/-- A feed response missing the `tag_name` field. -/
def respNoTag : Release :=
  { tag_name := none, name := "", html_url := "", body := "", assets := [] }

/-- A release whose notes are 600 characters long. -/
def relLong : Release :=
  { tag_name := some ("10.4.1"), name := "x", html_url := "u",
    body := String.mk (List.replicate 600 'a'), assets := [] }

/-- The message lines computed for `relLong`. -/
def psLong : List String :=
  match messageParts relLong with
  | .ok ps => ps
  | .error _ => []

/-- A release whose notes contain the substring Mandatory Upgrade starting
only at position 500, past the truncation point. -/
def relKw : Release :=
  { tag_name := some ("10.5"), name := "x", html_url := "u",
    body := String.mk (List.replicate 500 'x') ++ ("Mandatory Upgrade required"),
    assets := [] }

/-- The message lines computed for `relKw`. -/
def psKw : List String :=
  match messageParts relKw with
  | .ok ps => ps
  | .error _ => []

/-! ## Helper lemmas -/

/-- String append acts as list append on the underlying character lists. -/
theorem strAppendData (a b : String) : (a ++ b).data = a.data ++ b.data := rfl

/-- The characters of a packed string are the packed list. -/
theorem strMkData (l : List Char) : (String.mk l).data = l := rfl

/-- Two strings differing at some character position are distinct. -/
theorem str_ne_at (s t : String) (i : Nat) (a b : Char)
    (hs : s.data.getD i ' ' = a) (ht : t.data.getD i ' ' = b)
    (hab : a ≠ b) : s ≠ t :=
  fun e => hab (by rw [← hs, ← ht, e])

/-- Inversion of `check_new_release` when it returns a release: the feed must
have delivered that very release, its tag must be present and different from
the previous in-memory identifier, and the state after the call carries the
new tag in memory and in the cache file, with no warning sent. -/
theorem check_inv_some (st : MonitorState) (feed : FeedResult) (st' : MonitorState)
    (r : Release) (w : Option String)
    (h : check_new_release st feed = .ok (st', some r, w)) :
    ∃ tag last, feed = .ok r ∧ r.tag_name = some tag ∧ st.last_release = some last ∧
      tag ≠ last ∧
      st' = { last_release := some tag, cacheFile := some (some tag) } ∧ w = none := by
  rcases feed with e | resp
  · simp [check_new_release] at h
  · rcases htag : resp.tag_name with _ | tag
    · simp [check_new_release, htag] at h
    · rcases hlast : st.last_release with _ | last
      · simp [check_new_release, htag, hlast] at h
      · by_cases hne : tag ≠ last
        · simp only [check_new_release, htag, hlast, if_pos hne, save_cache,
            Except.ok.injEq, Prod.mk.injEq, Option.some.injEq] at h
          obtain ⟨h1, h2, h3⟩ := h
          subst h2
          refine ⟨tag, last, rfl, ?_, ?_, hne, h1.symm, h3.symm⟩
          · exact htag
          · first
            | exact hlast
            | rfl
        · simp [check_new_release, htag, hlast, if_neg hne] at h

/-- Inversion of `check_new_release` when it returns nothing without raising:
either the state is exactly as before the call, or this was a first run and
the state was seeded with one observed tag in memory and in the cache file. -/
theorem check_inv_none (st : MonitorState) (feed : FeedResult) (st' : MonitorState)
    (w : Option String)
    (h : check_new_release st feed = .ok (st', none, w)) :
    st' = st ∨
      (st.last_release = none ∧ ∃ t, st'.last_release = some t ∧ st'.cacheFile = some (some t)) := by
  rcases feed with e | resp
  · simp only [check_new_release, Except.ok.injEq, Prod.mk.injEq] at h
    exact Or.inl h.1.symm
  · rcases htag : resp.tag_name with _ | tag
    · simp [check_new_release, htag] at h
    · rcases hlast : st.last_release with _ | last
      · simp only [check_new_release, htag, hlast, save_cache,
          Except.ok.injEq, Prod.mk.injEq] at h
        refine Or.inr ⟨?_, tag, ?_, ?_⟩
        · first
          | exact hlast
          | rfl
        · rw [← h.1]
        · rw [← h.1]
      · by_cases hne : tag ≠ last
        · simp [check_new_release, htag, hlast, if_pos hne] at h
        · simp only [check_new_release, htag, hlast, if_neg hne,
            Except.ok.injEq, Prod.mk.injEq] at h
          exact Or.inl h.1.symm

/-! ## Claim theorems -/

/-- Claim C1: on a non-first-run call whose feed poll succeeds with a present
tag, if the tag differs from the last-seen identifier then
`check_new_release` returns the full release record and both the in-memory
and the persisted identifier now equal the new tag; if the tag equals the
last-seen identifier it returns nothing and the whole state (memory and cache
file) is unchanged. -/
theorem c1_nonfirst_run (st : MonitorState) (resp : Release) (t last : String)
    (htag : resp.tag_name = some t) (hlast : st.last_release = some last) :
    (t ≠ last → check_new_release st (.ok resp) =
      .ok ({ last_release := some t, cacheFile := some (some t) }, some resp, none)) ∧
    (t = last → check_new_release st (.ok resp) = .ok (st, none, none)) := by
  simp only [check_new_release, htag, hlast, save_cache]
  constructor
  · intro hne
    rw [if_pos hne]
  · intro heq
    rw [if_neg (fun hc => hc heq)]

/-- Claim C1 witness: from the state holding `10.1`, a feed response tagged
`10.2` is returned in full and the state moves to `10.2` in memory and cache. -/
theorem c1_nonfirst_run_witness :
    check_new_release stA (.ok relB) = .ok (stB, some relB, none) :=
  (c1_nonfirst_run stA relB ("10.2") ("10.1") rfl rfl).1 (by decide)

/-- Claim C2: on a first run (no identifier ever seen) with a successful feed
poll carrying a tag, `check_new_release` returns nothing regardless of the
rest of the feed content, and records the observed tag in memory and in the
cache file. -/
theorem c2_first_run (st : MonitorState) (resp : Release) (t : String)
    (htag : resp.tag_name = some t) (hfirst : st.last_release = none) :
    check_new_release st (.ok resp) =
      .ok ({ last_release := some t, cacheFile := some (some t) }, none, none) := by
  simp only [check_new_release, htag, hfirst, save_cache]

/-- Claim C2 witness: a freshly constructed monitor with no cache file seeds
itself from the first response and returns nothing. -/
theorem c2_first_run_witness :
    check_new_release (initMonitor none) (.ok relA) = .ok (stA, none, none) :=
  c2_first_run (initMonitor none) relA ("10.1") rfl rfl

/-- Claim C3: when the feed request fails, `check_new_release` returns
nothing, sends a warning notification through the notifier, and leaves the
state — in-memory and persisted identifier alike — exactly as it was. -/
theorem c3_feed_error (st : MonitorState) (e : String) :
    check_new_release st (.requestError e) =
      .ok (st, none, some ("⚠️ Error checking Cardano node releases: " ++ e)) := rfl

/-- Claim C4: along every successful run of checks, each returned release
carries a tag different from the identifier held just before the call, and
the state after a notification (or after a first-run seed) holds that tag in
memory with the cache file synchronized to it; calls returning nothing leave
the state untouched apart from the first-run seed. -/
theorem c4_trace (fs : List FeedResult) (st : MonitorState)
    (tr : List (MonitorState × Option Release))
    (h : traceStates st fs = .ok tr) : NotifyFresh st tr := by
  induction fs generalizing st tr with
  | nil =>
    simp only [traceStates, Except.ok.injEq] at h
    rw [← h]
    trivial
  | cons f fs ih =>
    unfold traceStates at h
    split at h
    · cases h
    · rename_i out st' ret w hc
      split at h
      · cases h
      · rename_i tr2 tr' ht
        injection h with h
        subst h
        refine ⟨?_, ?_, ih st' tr' ht⟩
        · intro r hr
          subst hr
          obtain ⟨tag, last, _, hrt, hsl, hne, hst, _⟩ := check_inv_some st f st' r w hc
          subst hst
          refine ⟨?_, by simp [hrt], rfl⟩
          rw [hsl, hrt]
          simp only [ne_eq, Option.some.injEq]
          exact fun hh => hne hh.symm
        · intro hr
          subst hr
          exact check_inv_none st f st' w hc

/-- Claim C4 witness: seeing `10.1` twice then `10.2` from a fresh monitor
notifies once, for `10.2`, with the state tracking the notified tag. -/
theorem c4_trace_witness :
    NotifyFresh (initMonitor none) [(stA, none), (stA, none), (stB, some relB)] :=
  c4_trace [.ok relA, .ok relA, .ok relB] (initMonitor none)
    [(stA, none), (stA, none), (stB, some relB)] rfl

/-- Claim C5 counterexample: on the tag `vv1.2.3` the code (which uses
`lstrip` and therefore strips EVERY leading `v`) parses `(1,2,3)`, while the
claim as stated — strip a single leading `v` — yields the zero fallback, so
the two disagree. -/
theorem c5_cex :
    parse_version ("vv1.2.3") = ([1, 2, 3], false) ∧
    parseClaimOneV ("vv1.2.3") = ([0, 0, 0], false) ∧
    parse_version ("vv1.2.3") ≠ parseClaimOneV ("vv1.2.3") := by decide

/-- Claim C5 amended: `parse_version` strips ALL leading `v` characters, then
splits on dashes, dot-splits the first segment into integers, flags a
pre-release exactly when a further segment exists, and falls back to
`((0,0,0), false)` on any parse failure; the three documented examples hold. -/
theorem c5_amended :
    (∀ tag : String, parse_version tag = parseClaimAllV tag) ∧
    parse_version ("v1.2.3") = ([1, 2, 3], false) ∧
    parse_version ("v1.2.3-rc1") = ([1, 2, 3], true) ∧
    parse_version ("not-a-version") = ([0, 0, 0], false) :=
  ⟨fun _ => rfl, by decide, by decide, by decide⟩

/-- Claim C6: the formatted message carries a notes section built from
`truncNotes`; for notes longer than 500 characters that section holds exactly
the first 497 characters plus the 3-character ellipsis (500 characters in
total, never the full notes), and notes of length at most 500 appear
verbatim. -/
theorem c6_truncation (r : Release) (ps : List String)
    (h : messageParts r = .ok ps) :
    ("\n<b>Release Notes:</b>\n" ++ truncNotes r.body) ∈ ps ∧
    (500 < r.body.data.length →
      truncNotes r.body = pySlice r.body 497 ++ ("...") ∧
      (truncNotes r.body).data.length = 500 ∧ truncNotes r.body ≠ r.body) ∧
    (r.body.data.length ≤ 500 → truncNotes r.body = r.body) := by
  refine ⟨?_, ?_, ?_⟩
  · rcases htag : r.tag_name with _ | tag
    · simp [messageParts, htag] at h
    · simp only [messageParts, htag, Except.ok.injEq] at h
      subst h
      simp [List.mem_append]
  · intro hlen
    have h1 : truncNotes r.body = pySlice r.body 497 ++ ("...") := by
      unfold truncNotes
      rw [if_pos hlen]
    have h2 : (truncNotes r.body).data.length = 500 := by
      rw [h1]
      show (String.mk (r.body.data.take 497) ++ ("...")).data.length = 500
      rw [strAppendData, strMkData, List.length_append, List.length_take]
      have h3 : ("..." : String).data.length = 3 := rfl
      rw [h3]
      omega
    refine ⟨h1, h2, ?_⟩
    intro he
    have hl := congrArg (fun s : String => s.data.length) he
    simp only at hl
    rw [h2] at hl
    omega
  · intro hlen
    unfold truncNotes
    rw [if_neg (Nat.not_lt.mpr hlen)]

set_option maxRecDepth 8000 in
/-- Claim C6 witness: on 600-character notes the notes placed in the message
are 500 characters and differ from the full notes. -/
theorem c6_truncation_witness :
    truncNotes relLong.body ≠ relLong.body ∧ (truncNotes relLong.body).data.length = 500 := by
  have hlen : 500 < relLong.body.data.length := by
    simp [relLong, strMkData]
  have h := (c6_truncation relLong psLong rfl).2.1 hlen
  exact ⟨h.2.2, h.2.1⟩

/-- Claim C7: for each keyword of the fixed list, the formatted message lines
contain the warning line naming that keyword exactly when the keyword occurs
case-insensitively in the FULL untruncated notes, and the produced warning
lines follow the keyword-list order (they form a sublist of the per-keyword
lines in list order). -/
theorem c7_keywords (r : Release) (k : String) (ps : List String)
    (hps : messageParts r = .ok ps) (hk : k ∈ important_keywords) :
    (warnLine k ∈ ps ↔ strContains (asciiLower r.body) k = true) ∧
    List.Sublist (keywordLines r.body) (important_keywords.map warnLine) := by
  constructor
  swap
  · simp only [keywordLines]
    exact List.Sublist.map warnLine (List.filter_sublist important_keywords)
  rcases htag : r.tag_name with _ | tag
  · simp [messageParts, htag] at hps
  · simp only [messageParts, htag, Except.ok.injEq] at hps
    subst hps
    constructor
    · intro hmem
      rcases List.mem_append.mp hmem with hmem | hkw
      · rcases List.mem_append.mp hmem with hmem | hnotes
        · rcases List.mem_append.mp hmem with hmem | hassets
          · rcases List.mem_append.mp hmem with hmem | hurl
            · rcases List.mem_append.mp hmem with hbase | hpre
              · simp only [List.mem_cons, List.not_mem_nil, or_false] at hbase
                rcases hbase with h | h | h
                · exact absurd h (str_ne_at _ _ 0 '\n' '🔔' rfl rfl (by decide))
                · exact absurd h (str_ne_at _ _ 1 '⚠' '<' rfl rfl (by decide))
                · exact absurd h (str_ne_at _ _ 0 '\n' '<' rfl rfl (by decide))
              · split at hpre
                · simp only [List.mem_singleton] at hpre
                  exact absurd hpre (str_ne_at _ _ 7 'I' 'N' rfl rfl (by decide))
                · exact absurd hpre (List.not_mem_nil _)
            · simp only [List.mem_singleton] at hurl
              exact absurd hurl (str_ne_at _ _ 1 '⚠' '<' rfl rfl (by decide))
          · unfold assetLines at hassets
            split at hassets
            · exact absurd hassets (List.not_mem_nil _)
            · simp only [List.mem_cons] at hassets
              rcases hassets with h | h
              · exact absurd h (str_ne_at _ _ 1 '⚠' '<' rfl rfl (by decide))
              · rcases List.mem_map.mp h with ⟨a, _, heq⟩
                exact absurd heq.symm (str_ne_at _ _ 0 '\n' '•' rfl rfl (by decide))
        · simp only [List.mem_singleton] at hnotes
          exact absurd hnotes (str_ne_at _ _ 1 '⚠' '<' rfl rfl (by decide))
      · simp only [keywordLines] at hkw
        rcases List.mem_map.mp hkw with ⟨k2, hk2, heq⟩
        have hk2m := List.mem_of_mem_filter hk2
        have hk2p := List.of_mem_filter hk2
        simp only [important_keywords, List.mem_cons, List.mem_singleton,
          List.not_mem_nil, or_false] at hk hk2m
        rcases hk with h1 | h1 | h1 <;> rcases hk2m with h2 | h2 | h2 <;>
          subst h1 <;> subst h2 <;>
          first
            | exact hk2p
            | exact absurd heq (by decide)
    · intro hc
      refine List.mem_append_right _ ?_
      simp only [keywordLines]
      exact List.mem_map_of_mem warnLine (List.mem_filter_of_mem hk hc)

set_option maxRecDepth 8000 in
/-- Claim C7 witness: notes whose Mandatory Upgrade mention starts only at
position 500 — past the truncation point — still yield the warning line. -/
theorem c7_keywords_witness : warnLine ("mandatory upgrade") ∈ psKw :=
  ((c7_keywords relKw ("mandatory upgrade") psKw rfl (by decide)).1).mpr (by decide)

/-- Claim C8: saving a non-empty identifier and loading it back returns the
same identifier, both through a direct load and through a freshly constructed
monitor reading the same storage (simulated process restart). -/
theorem c8_roundtrip (x : String) (_hx : x ≠ "") :
    load_cache (save_cache (some x)) none = some x ∧
    (initMonitor (save_cache (some x))).last_release = some x :=
  ⟨rfl, rfl⟩

/-- Claim C8 witness: the round trip at the identifier `10.1.2`. -/
theorem c8_roundtrip_witness :
    ("10.1.2" : String) ≠ "" ∧
      (initMonitor (save_cache (some ("10.1.2")))).last_release = some ("10.1.2") :=
  ⟨by decide, (c8_roundtrip ("10.1.2") (by decide)).2⟩

/-- Claim C9 counterexample: a feed response missing the `tag_name` field
makes `check_new_release` raise (the `except` clause catches only
`RequestException`, not the `KeyError`), so an error does escape toward the
scheduler loop, contradicting the claim that no input can crash the loop. -/
theorem c9_cex :
    check_new_release (initMonitor none) (.ok respNoTag) = .error ("KeyError: tag_name") := rfl

/-- Claim C9 amended: for every feed response that carries a `tag_name` and
for every transport failure, `check_new_release` returns without raising, and
`send_message` never raises (every exception is caught, yielding `false`);
only a response missing `tag_name` raises an uncaught `KeyError`. -/
theorem c9_amended :
    (∀ (st : MonitorState) (resp : Release) (t : String), resp.tag_name = some t →
      ∃ out, check_new_release st (.ok resp) = .ok out) ∧
    (∀ (st : MonitorState) (e : String), ∃ out, check_new_release st (.requestError e) = .ok out) ∧
    (∀ e : String, send_message (.error e) = false) := by
  refine ⟨?_, fun st e => ⟨_, rfl⟩, fun e => rfl⟩
  intro st resp t htag
  rcases hlast : st.last_release with _ | last
  · refine ⟨({ last_release := some t, cacheFile := some (some t) }, none, none), ?_⟩
    simp [check_new_release, htag, hlast, save_cache]
  · by_cases hne : t ≠ last
    · refine ⟨({ last_release := some t, cacheFile := some (some t) }, some resp, none), ?_⟩
      simp only [check_new_release, htag, hlast, if_pos hne, save_cache]
    · refine ⟨(st, none, none), ?_⟩
      simp only [check_new_release, htag, hlast, if_neg hne]

/-- Claim C9 amended witness: a tag-bearing response never makes the check
raise. -/
theorem c9_amended_witness :
    ∃ out, check_new_release stA (.ok relB) = .ok out :=
  c9_amended.1 stA relB ("10.2") rfl

/-- Claim C10: whenever `check_new_release` returns a release, the state
already handed back holds that tag in memory with the cache file
synchronized, a subsequent check seeing the same tag returns nothing from
that state, and the post-iteration state of the monitoring loop does not
depend on whether the notification POST succeeded (its result is discarded),
so a failed notification cannot cause the same tag to be returned again. -/
theorem c10_state_before_return (st : MonitorState) (feed : FeedResult) (st' : MonitorState)
    (r : Release) (w : Option String)
    (h : check_new_release st feed = .ok (st', some r, w)) :
    r.tag_name = st'.last_release ∧ st'.cacheFile = some st'.last_release ∧
    (∀ resp2 : Release, resp2.tag_name = r.tag_name →
      check_new_release st' (.ok resp2) = .ok (st', none, none)) ∧
    (∀ p₁ p₂ : Except String Unit,
      (loopStep st feed p₁).map Prod.fst = (loopStep st feed p₂).map Prod.fst) := by
  obtain ⟨tag, last, hfeed, hrt, hsl, hne, hst, hw⟩ := check_inv_some st feed st' r w h
  subst hst
  refine ⟨by simp [hrt], rfl, ?_, ?_⟩
  · intro resp2 h2
    rw [hrt] at h2
    simp [check_new_release, h2]
  · intro p₁ p₂
    simp only [loopStep, h, Except.map]

/-- Claim C10 witness: the tag of the release returned from `stA` on seeing
`relB` equals the identifier already stored in the returned state. -/
theorem c10_witness :
    relB.tag_name = stB.last_release :=
  (c10_state_before_return stA (.ok relB) stB relB none rfl).1
